import Mathlib

/-!
Shallow embedding of the COGNOSO transactional record store
(src/backend/crates/server_backend/src/server/database.rs and
src/backend/crates/server_backend/src/andy_error.rs), together with
theorems settling the spec claims about it.

Machine integers are modelled as Nat with explicit reduction mod 2^w
where the Rust code wraps.  Rust panics (unwrap / expect / todo!) are
modelled as an explicit RunResult.panic outcome, distinct from typed
AndyError returns.  The redb tables are modelled as association lists;
redb's insert has upsert semantics (replace the value if the key is
present), which tableInsert mirrors.
-/

set_option autoImplicit false

namespace Cognoso

/-! ## SipHash-1-3: the std DefaultHasher used by fn hash in database.rs.
DefaultHasher::new() is SipHasher13 with both keys fixed to 0, so the
initial state is a constant: hashing reads no ambient process state. -/

/-- Modulus for wrapping 64-bit arithmetic. -/
def M64 : Nat := 2 ^ 64

/-- Wrapping 64-bit addition. -/
def wadd (a b : Nat) : Nat := (a + b) % M64

/-- Rotate a 64-bit value left by b bits (0 < b < 64). -/
def rotl (x b : Nat) : Nat := ((x <<< b) % M64) ||| (x >>> (64 - b))

/-- The four 64-bit words of SipHash internal state. -/
structure SipState where
  v0 : Nat
  v1 : Nat
  v2 : Nat
  v3 : Nat
deriving DecidableEq, Repr

/-- One SIPROUND permutation of the state. -/
def sipRound (s : SipState) : SipState :=
  let v0 := wadd s.v0 s.v1
  let v1 := rotl s.v1 13
  let v1 := v1 ^^^ v0
  let v0 := rotl v0 32
  let v2 := wadd s.v2 s.v3
  let v3 := rotl s.v3 16
  let v3 := v3 ^^^ v2
  let v0 := wadd v0 v3
  let v3 := rotl v3 21
  let v3 := v3 ^^^ v0
  let v2 := wadd v2 v1
  let v1 := rotl v1 17
  let v1 := v1 ^^^ v2
  let v2 := rotl v2 32
  ⟨v0, v1, v2, v3⟩

/-- Initial SipHash state for keys k0 = k1 = 0, as fixed by
DefaultHasher::new(). -/
def sipInit : SipState :=
  ⟨0x736f6d6570736575, 0x646f72616e646f6d, 0x6c7967656e657261, 0x7465646279746573⟩

/-- Little-endian value of a byte list. -/
def leWord (bs : List Nat) : Nat := bs.foldr (fun b acc => b + 256 * acc) 0

/-- Absorb one 8-byte message word (SipHash-1-3: one round per word). -/
def sipCompress (s : SipState) (m : Nat) : SipState :=
  let s := { s with v3 := s.v3 ^^^ m }
  let s := sipRound s
  { s with v0 := s.v0 ^^^ m }

/-- Absorb all full 8-byte blocks, returning the state and the tail bytes. -/
def sipBody (s : SipState) : List Nat → SipState × List Nat
  | b0 :: b1 :: b2 :: b3 :: b4 :: b5 :: b6 :: b7 :: rest =>
      sipBody (sipCompress s (leWord [b0, b1, b2, b3, b4, b5, b6, b7])) rest
  | rest => (s, rest)

/-- SipHash-1-3 with zero keys over a byte message: the value
DefaultHasher::new() followed by writes of these bytes and finish()
produces. -/
def siphash13 (msg : List Nat) : Nat :=
  let p := sipBody sipInit msg
  let b := leWord p.2 + (msg.length % 256) * (2 ^ 56)
  let s := sipCompress p.1 b
  let s := { s with v2 := s.v2 ^^^ 0xff }
  let s := sipRound (sipRound (sipRound s))
  ((s.v0 ^^^ s.v1) ^^^ s.v2) ^^^ s.v3

/-- UTF-8 encoding of one character, as byte values. -/
def utf8Encode (c : Char) : List Nat :=
  let n := c.toNat
  if n < 0x80 then [n]
  else if n < 0x800 then
    [0xC0 ||| (n >>> 6), 0x80 ||| (n &&& 0x3F)]
  else if n < 0x10000 then
    [0xE0 ||| (n >>> 12), 0x80 ||| ((n >>> 6) &&& 0x3F), 0x80 ||| (n &&& 0x3F)]
  else
    [0xF0 ||| (n >>> 18), 0x80 ||| ((n >>> 12) &&& 0x3F),
     0x80 ||| ((n >>> 6) &&& 0x3F), 0x80 ||| (n &&& 0x3F)]

/-- The UTF-8 bytes of a string, as str::as_bytes exposes them. -/
def strBytes (s : String) : List Nat := (s.data.map utf8Encode).flatten

/-- Embedding of fn hash in database.rs applied to a string: Rust's
Hash for str writes the UTF-8 bytes then a 0xff terminator byte into the
hasher, and finish() is taken.  DefaultHasher::new() starts from the
constant sipInit state on every call. -/
def hash (username : String) : Nat := siphash13 (strBytes username ++ [0xff])

/-- Embedding of fn hash where the ambient process state (seed) at the
call site is made explicit: DefaultHasher::new() ignores it, as it
constructs the hasher from fixed keys (0, 0). -/
def hashInProcess (_processState : Nat) (username : String) : Nat := hash username

/-! ## SHA-256: the sha2 crate digest primitive used by fn sha256_hash.
Full FIPS 180-4 implementation over Nat with wrapping 32-bit arithmetic. -/

/-- Modulus for wrapping 32-bit arithmetic. -/
def M32 : Nat := 2 ^ 32

/-- Wrapping 32-bit addition. -/
def add32 (a b : Nat) : Nat := (a + b) % M32

/-- Rotate a 32-bit value right by n bits (0 < n < 32). -/
def rotr32 (x n : Nat) : Nat := (x >>> n) ||| ((x <<< (32 - n)) % M32)

/-- Bitwise complement on 32 bits. -/
def not32 (x : Nat) : Nat := x ^^^ (M32 - 1)

/-- SHA-256 Ch function. -/
def ch (x y z : Nat) : Nat := (x &&& y) ^^^ (not32 x &&& z)

/-- SHA-256 Maj function. -/
def maj (x y z : Nat) : Nat := ((x &&& y) ^^^ (x &&& z)) ^^^ (y &&& z)

/-- SHA-256 big Sigma0. -/
def bsig0 (x : Nat) : Nat := (rotr32 x 2 ^^^ rotr32 x 13) ^^^ rotr32 x 22

/-- SHA-256 big Sigma1. -/
def bsig1 (x : Nat) : Nat := (rotr32 x 6 ^^^ rotr32 x 11) ^^^ rotr32 x 25

/-- SHA-256 small sigma0. -/
def ssig0 (x : Nat) : Nat := (rotr32 x 7 ^^^ rotr32 x 18) ^^^ (x >>> 3)

/-- SHA-256 small sigma1. -/
def ssig1 (x : Nat) : Nat := (rotr32 x 17 ^^^ rotr32 x 19) ^^^ (x >>> 10)

/-- The 64 SHA-256 round constants of FIPS 180-4, written in decimal. -/
def sha256K : List Nat :=
  [1116352408, 1899447441, 3049323471, 3921009573, 961987163,
   1508970993, 2453635748, 2870763221, 3624381080, 310598401,
   607225278, 1426881987, 1925078388, 2162078206, 2614888103,
   3248222580, 3835390401, 4022224774, 264347078, 604807628,
   770255983, 1249150122, 1555081692, 1996064986, 2554220882,
   2821834349, 2952996808, 3210313671, 3336571891, 3584528711,
   113926993, 338241895, 666307205, 773529912, 1294757372,
   1396182291, 1695183700, 1986661051, 2177026350, 2456956037,
   2730485921, 2820302411, 3259730800, 3345764771, 3516065817,
   3600352804, 4094571909, 275423344, 430227734, 506948616,
   659060556, 883997877, 958139571, 1322822218, 1537002063,
   1747873779, 1955562222, 2024104815, 2227730452, 2361852424,
   2428436474, 2756734187, 3204031479, 3329325298]

/-- The eight SHA-256 chaining words. -/
structure Sha256H where
  h0 : Nat
  h1 : Nat
  h2 : Nat
  h3 : Nat
  h4 : Nat
  h5 : Nat
  h6 : Nat
  h7 : Nat
deriving DecidableEq, Repr

/-- SHA-256 initial hash value of FIPS 180-4, written in decimal. -/
def sha256Init : Sha256H :=
  ⟨1779033703, 3144134277, 1013904242, 2773480762,
   1359893119, 2600822924, 528734635, 1541459225⟩

/-- The eight working registers of the compression function. -/
structure ShaRegs where
  a : Nat
  b : Nat
  c : Nat
  d : Nat
  e : Nat
  f : Nat
  g : Nat
  h : Nat
deriving DecidableEq, Repr

/-- One round of the SHA-256 compression function, consuming a
(round constant, schedule word) pair. -/
def shaRound (s : ShaRegs) (kw : Nat × Nat) : ShaRegs :=
  let t1 := add32 s.h (add32 (bsig1 s.e) (add32 (ch s.e s.f s.g) (add32 kw.1 kw.2)))
  let t2 := add32 (bsig0 s.a) (maj s.a s.b s.c)
  ⟨add32 t1 t2, s.a, s.b, s.c, add32 s.d t1, s.e, s.f, s.g⟩

/-- Extend 16 message words to the 64-word schedule. -/
def extendW (w : List Nat) : List Nat :=
  (List.range 48).foldl
    (fun acc i =>
      acc ++ [add32 (add32 (ssig1 (acc.getD (i + 14) 0)) (acc.getD (i + 9) 0))
                    (add32 (ssig0 (acc.getD (i + 1) 0)) (acc.getD i 0))])
    w

/-- Compress one 16-word block into the chaining state. -/
def compressBlock (hh : Sha256H) (w16 : List Nat) : Sha256H :=
  let w := extendW w16
  let r := (sha256K.zip w).foldl shaRound
    ⟨hh.h0, hh.h1, hh.h2, hh.h3, hh.h4, hh.h5, hh.h6, hh.h7⟩
  ⟨add32 hh.h0 r.a, add32 hh.h1 r.b, add32 hh.h2 r.c, add32 hh.h3 r.d,
   add32 hh.h4 r.e, add32 hh.h5 r.f, add32 hh.h6 r.g, add32 hh.h7 r.h⟩

/-- Big-endian byte representation of n in exactly count bytes. -/
def beBytes (n count : Nat) : List Nat :=
  (List.range count).map (fun i => (n >>> (8 * (count - 1 - i))) % 256)

/-- FIPS 180-4 padding: 0x80, zeros to 56 mod 64, 8-byte bit length. -/
def sha256pad (msg : List Nat) : List Nat :=
  let len := msg.length
  let zeros := (64 + 56 - ((len + 1) % 64)) % 64
  msg ++ [0x80] ++ List.replicate zeros 0 ++ beBytes (len * 8) 8

/-- Group bytes into big-endian 32-bit words. -/
def bytesToWords : List Nat → List Nat
  | b0 :: b1 :: b2 :: b3 :: rest =>
      (((b0 * 256 + b1) * 256 + b2) * 256 + b3) :: bytesToWords rest
  | _ => []

/-- Fold the compression function over all 16-word blocks. -/
def sha256Blocks (hh : Sha256H) : List Nat → Sha256H
  | w0 :: w1 :: w2 :: w3 :: w4 :: w5 :: w6 :: w7 ::
    w8 :: w9 :: w10 :: w11 :: w12 :: w13 :: w14 :: w15 :: rest =>
      sha256Blocks
        (compressBlock hh [w0, w1, w2, w3, w4, w5, w6, w7,
                           w8, w9, w10, w11, w12, w13, w14, w15]) rest
  | _ => hh

/-- SHA-256 digest of a byte message, as a list of 32 bytes: the value
sha2::Sha256::new() / update(bytes) / finalize() produces. -/
def sha256 (msg : List Nat) : List Nat :=
  let hh := sha256Blocks sha256Init (bytesToWords (sha256pad msg))
  beBytes hh.h0 4 ++ (beBytes hh.h1 4 ++ (beBytes hh.h2 4 ++ (beBytes hh.h3 4 ++
    (beBytes hh.h4 4 ++ (beBytes hh.h5 4 ++ (beBytes hh.h6 4 ++ beBytes hh.h7 4))))))

/-! ## Data model and error type (database.rs, andy_error.rs). -/

/-- Declared storage width of the password digest field
(const SHA265_NUM_BYTES in database.rs). -/
def SHA265_NUM_BYTES : Nat := 100

/-- Struct Card: a question/answer pair. -/
structure Card where
  question : String
  answer : String
deriving DecidableEq, Repr

/-- Struct CardDeck: the whole-record value stored in the decks table. -/
structure CardDeck where
  creation_time : Nat
  cards : List Card
  name : String
deriving DecidableEq, Repr

/-- Struct UserEntry: the value stored in the users table.  The Rust
field password_hash has type [u8; SHA265_NUM_BYTES]; bytes are Nats
below 256 and the length is fixed by construction or hypothesis. -/
structure UserEntry where
  username : String
  user_id : Nat
  email : String
  password_hash : List Nat
  signup_time : Nat
deriving DecidableEq, Repr

/-- Enum AndyError (andy_error.rs).  Payload details of the wrapped
library errors are irrelevant to the claims and omitted.  Note the enum
has no DeckNotFound, Conflict or EncodingCorruption variant. -/
inductive AndyError where
  | Hyper
  | Serde
  | Io
  | UserDoesNotExist
  | WrongPassword
  | BadAccessToken
  | DbError
  | DbTransaction
  | DbTable
  | DbStorage
  | DbCommit
  | IntCast
  | HttpError
  | HttpInvalidHeader
deriving DecidableEq, Repr

/-- Outcome of running a database method: an Ok value, a typed
AndyError return, or a Rust panic (unwrap / expect / todo!), which
terminates the process. -/
inductive RunResult (α : Type) where
  | ok (a : α)
  | err (e : AndyError)
  | panic (msg : String)
deriving DecidableEq, Repr

/-- Association-list model of a redb table. -/
abbrev Table (κ ν : Type) : Type := List (κ × ν)

/-- Table lookup (redb get). -/
def tableGet {κ ν : Type} [DecidableEq κ] : Table κ ν → κ → Option ν
  | [], _ => none
  | (k2, v2) :: rest, k => if k = k2 then some v2 else tableGet rest k

/-- Table insert with redb semantics: insert replaces the value if the
key is already present (upsert) and reports the old value, which every
caller in database.rs discards with ?; no conflict check is made. -/
def tableInsert {κ ν : Type} [DecidableEq κ] : Table κ ν → κ → ν → Table κ ν
  | [], k, v => [(k, v)]
  | (k2, v2) :: rest, k, v =>
      if k = k2 then (k, v) :: rest else (k2, v2) :: tableInsert rest k v

/-- The store state: the users table (key: username string) and the
decks table (key: (user_id, deck_id) pair), per the TableDefinitions in
database.rs. -/
structure Database where
  users : Table String UserEntry
  decks : Table (Nat × Nat) CardDeck
deriving DecidableEq, Repr

/-! ## Database operations (database.rs).  The wall clock read by
get_current_unix_time_seconds is passed in explicitly as now. -/

/-- Embedding of fn sha256_hash: digest the bytes with SHA-256, then
coerce the resulting Vec into [u8; SHA265_NUM_BYTES] with
try_into().unwrap(), which panics when the digest length differs from
the declared width. -/
def sha256_hash (bytes : List Nat) : RunResult (List Nat) :=
  let result := sha256 bytes
  if result.length = SHA265_NUM_BYTES then .ok result
  else .panic "called Result::unwrap on an Err value"

/-- Embedding of Database::validate_token, whose body is todo!(): it
panics unconditionally on every token. -/
def validate_token (_token : String) : RunResult Nat :=
  .panic "not yet implemented"

/-- Embedding of Database::new_user: derive user_id from the username,
hash the password, insert the UserEntry under the username key inside
one write transaction.  A panic inside sha256_hash propagates. -/
def new_user (db : Database) (now : Nat) (user_name email password : String) :
    RunResult Database :=
  let user_id := hash user_name
  match sha256_hash (strBytes password) with
  | .panic m => .panic m
  | .err e => .err e
  | .ok password_hash =>
      let entry : UserEntry :=
        { username := user_name, user_id := user_id, email := email,
          password_hash := password_hash, signup_time := now }
      .ok { db with users := tableInsert db.users user_name entry }

/-- Embedding of Database::new_card_deck: derive deck_id from the deck
name and insert an empty CardDeck under (user_id, deck_id) inside one
write transaction. -/
def new_card_deck (db : Database) (now : Nat) (user_id : Nat) (deck_name : String) :
    RunResult Database :=
  let deck_id := hash deck_name
  let deck : CardDeck := { creation_time := now, cards := [], name := deck_name }
  .ok { db with decks := tableInsert db.decks (user_id, deck_id) deck }

/-- Read phase of Database::new_card: a read transaction is begun and
the deck under (user_id, deck_id) is fetched from its snapshot. -/
def new_card_read (db : Database) (user_id deck_id : Nat) : Option CardDeck :=
  tableGet db.decks (user_id, deck_id)

/-- Write phase of Database::new_card: the card is pushed onto the
in-memory copy and Database::insert writes the whole record back inside
a second, separate write transaction. -/
def new_card_write (db : Database) (user_id deck_id : Nat) (deck : CardDeck)
    (question answer : String) : Database :=
  let deck := { deck with cards := deck.cards ++ [{ question := question, answer := answer }] }
  { db with decks := tableInsert db.decks (user_id, deck_id) deck }

/-- Embedding of Database::new_card run in isolation: read phase, then
unwrap (panicking when the deck is absent), then write phase. -/
def new_card (db : Database) (user_id deck_id : Nat) (question answer : String) :
    RunResult Database :=
  match new_card_read db user_id deck_id with
  | none => .panic "called Option::unwrap on a None value"
  | some deck => .ok (new_card_write db user_id deck_id deck question answer)

/-- Two overlapped executions of Database::new_card on the same key, in
the schedule read A, read B, write A, write B.  The schedule is
admitted by the code because the read and the write of one call live in
two independent transactions: both read transactions see the same
snapshot, and the two write transactions then serialize one after the
other.  Returns none when the deck is absent (both calls would panic). -/
def new_card_interleaved (db : Database) (user_id deck_id : Nat)
    (qA aA qB aB : String) : Option Database :=
  match new_card_read db user_id deck_id, new_card_read db user_id deck_id with
  | some deckA, some deckB =>
      let db1 := new_card_write db user_id deck_id deckA qA aA
      some (new_card_write db1 user_id deck_id deckB qB aB)
  | _, _ => none

/-- Struct api_structs::Card as constructed by list_cards (the
api_structs crate itself is outside src/; the two fields are read off
the construction site in database.rs). -/
structure ApiCard where
  question : String
  answer : String
deriving DecidableEq, Repr

/-- Modelled from the spec: struct api_structs::CardDeck as constructed
by list_card_decks.  The api_structs crate is not under src/; the spec
says each entry carries the deck id, its name and its card count, and
the construction site converts cards.len() with try_into()?, so
num_cards is modelled as a 32-bit count. -/
structure ApiCardDeck where
  deck_id : Nat
  name : String
  num_cards : Nat
deriving DecidableEq, Repr

/-- Modelled from the spec: the fallible usize to num_cards conversion
cards.len().try_into()? in list_card_decks, against a 32-bit field
width; failure maps to AndyError::IntCast via the From impl. -/
def tryIntoNumCards (n : Nat) : RunResult Nat :=
  if n < 2 ^ 32 then .ok n else .err .IntCast

/-- Loop body of Database::list_card_decks: walk the table entries in
order, keep those whose key has the given user_id as first component,
and record deck_id, name and card count for each. -/
def decksLoop (user_id : Nat) : Table (Nat × Nat) CardDeck → RunResult (List ApiCardDeck)
  | [] => .ok []
  | ((uid, did), deck) :: rest =>
      if uid = user_id then
        match tryIntoNumCards deck.cards.length with
        | .err e => .err e
        | .panic m => .panic m
        | .ok n =>
            match decksLoop user_id rest with
            | .ok l => .ok ({ deck_id := did, name := deck.name, num_cards := n } :: l)
            | r => r
      else decksLoop user_id rest

/-- Embedding of Database::list_card_decks: iterate the decks table
inside one read transaction and collect the caller's decks. -/
def list_card_decks (db : Database) (user_id : Nat) : RunResult (List ApiCardDeck) :=
  decksLoop user_id db.decks

/-- Embedding of Database::list_cards: fetch the deck under
(user_id, deck_id), unwrap (panicking when absent), and return its card
sequence in order. -/
def list_cards (db : Database) (user_id deck_id : Nat) : RunResult (List ApiCard) :=
  match tableGet db.decks (user_id, deck_id) with
  | none => .panic "called Option::unwrap on a None value"
  | some deck => .ok (deck.cards.map (fun c => { question := c.question, answer := c.answer }))

/-! ## Encoding contract (the implement_redb_value! macro).
The stored bytes are serde_json output.  The embedding works at the
level of the serde_json value model: the derived Serialize /
Deserialize impls of the record structs map a value to and from a JSON
document, and serde_json's printer/parser pair carries that document to
and from bytes.  All JSON numbers written by these structs are u64 or
u8 values, hence nonnegative integers. -/

/-- JSON document model (serde_json::Value).  All numbers written by
the record structs are u64 or u8 values, so numbers carry a Nat. -/
inductive Json where
  | str (s : String)
  | num (n : Nat)
  | null
  | bool (b : Bool)
  | arr (items : List Json)
  | obj (entries : List (String × Json))
deriving Repr

/-- Decode a JSON value as a u64, as serde does for u64 fields. -/
def decodeU64 (j : Json) : Option Nat :=
  match j with
  | .num n => if n < 2 ^ 64 then some n else none
  | _ => none

/-- Decode a JSON value as a u8, as serde does for byte elements. -/
def decodeU8 (j : Json) : Option Nat :=
  match j with
  | .num n => if n < 256 then some n else none
  | _ => none

/-- Sequence deserialization: decode every element, failing if any
element fails, as serde does for Vec and array fields. -/
def decodeList {α : Type} (f : Json → Option α) : List Json → Option (List α)
  | [] => some []
  | j :: rest =>
      match f j, decodeList f rest with
      | some a, some l => some (a :: l)
      | _, _ => none

/-- Serialization of Card by its derived Serialize impl. -/
def encodeCard (c : Card) : Json :=
  .obj [("question", .str c.question), ("answer", .str c.answer)]

/-- Deserialization of Card on the document shape its Serialize impl
emits (serde additionally tolerates field reordering, which encoded
output never exercises). -/
def decodeCard (j : Json) : Option Card :=
  match j with
  | .obj [("question", .str q), ("answer", .str a)] => some { question := q, answer := a }
  | _ => none

/-- Serialization of CardDeck by its derived Serialize impl: fields in
declaration order, the card vector as a JSON array. -/
def encodeCardDeck (d : CardDeck) : Json :=
  .obj [("creation_time", .num d.creation_time),
        ("cards", .arr (d.cards.map encodeCard)),
        ("name", .str d.name)]

/-- Deserialization of CardDeck on the document shape its Serialize
impl emits. -/
def decodeCardDeck (j : Json) : Option CardDeck :=
  match j with
  | .obj [("creation_time", jt), ("cards", .arr js), ("name", .str nm)] =>
      match decodeU64 jt, decodeList decodeCard js with
      | some t, some cs => some { creation_time := t, cards := cs, name := nm }
      | _, _ => none
  | _ => none

/-- Serialization of UserEntry by its derived Serialize impl: fields in
declaration order; the password_hash byte array is written through
serde_with::Bytes, which serde_json renders as an array of numbers. -/
def encodeUserEntry (u : UserEntry) : Json :=
  .obj [("username", .str u.username),
        ("user_id", .num u.user_id),
        ("email", .str u.email),
        ("password_hash", .arr (u.password_hash.map Json.num)),
        ("signup_time", .num u.signup_time)]

/-- Deserialization of UserEntry on the document shape its Serialize
impl emits; the fixed-size [u8; SHA265_NUM_BYTES] field requires
exactly SHA265_NUM_BYTES byte elements. -/
def decodeUserEntry (j : Json) : Option UserEntry :=
  match j with
  | .obj [("username", .str un), ("user_id", ju), ("email", .str em),
          ("password_hash", .arr jb), ("signup_time", jt)] =>
      match decodeU64 ju, decodeList decodeU8 jb, decodeU64 jt with
      | some uid, some ph, some t =>
          if ph.length = SHA265_NUM_BYTES then
            some { username := un, user_id := uid, email := em,
                   password_hash := ph, signup_time := t }
          else none
      | _, _, _ => none
  | _ => none

/-- Embedding of from_bytes for CardDeck as generated by
implement_redb_value!: deserialize the stored document and .expect the
result, panicking on any document that does not decode. -/
def CardDeck.from_bytes (j : Json) : RunResult CardDeck :=
  match decodeCardDeck j with
  | some v => .ok v
  | none => .panic "database deserialization messed up"

/-- Embedding of from_bytes for UserEntry as generated by
implement_redb_value!: deserialize the stored document and .expect the
result, panicking on any document that does not decode. -/
def UserEntry.from_bytes (j : Json) : RunResult UserEntry :=
  match decodeUserEntry j with
  | some v => .ok v
  | none => .panic "database deserialization messed up"

/-- Validity of a CardDeck value as stored by the Rust code: the u64
timestamp is in range (strings and cards are unconstrained). -/
abbrev ValidCardDeck (d : CardDeck) : Prop := d.creation_time < 2 ^ 64

/-- Validity of a UserEntry value as stored by the Rust code: u64
fields in range, and password_hash an array of SHA265_NUM_BYTES
bytes. -/
abbrev ValidUserEntry (u : UserEntry) : Prop :=
  u.user_id < 2 ^ 64 ∧ u.signup_time < 2 ^ 64 ∧
  u.password_hash.length = SHA265_NUM_BYTES ∧ ∀ b ∈ u.password_hash, b < 256

/-- Spec-side description of list_decks for claim C9, following the
spec words: exactly the entries of the decks table whose composite key
has the given user_id as first component, each carrying the deck id,
the deck name and its card count, in table order. -/
def decksOwnedBy (t : Table (Nat × Nat) CardDeck) (user_id : Nat) : List ApiCardDeck :=
  (t.filter (fun e => e.1.1 == user_id)).map
    (fun e => { deck_id := e.1.2, name := e.2.name, num_cards := e.2.cards.length })

/-! ## Helper lemmas. -/

theorem tableGet_insert_same {κ ν : Type} [DecidableEq κ] (t : Table κ ν) (k : κ) (v : ν) :
    tableGet (tableInsert t k v) k = some v := by
  induction t with
  | nil => simp [tableInsert, tableGet]
  | cons p rest ih =>
      obtain ⟨k2, v2⟩ := p
      by_cases h : k = k2 <;> simp [tableInsert, tableGet, h, ih]

theorem tableGet_insert_ne {κ ν : Type} [DecidableEq κ] (t : Table κ ν) (k k2 : κ) (v : ν)
    (hne : k2 ≠ k) : tableGet (tableInsert t k v) k2 = tableGet t k2 := by
  induction t with
  | nil => simp [tableInsert, tableGet, hne]
  | cons p rest ih =>
      obtain ⟨k3, v3⟩ := p
      by_cases h : k = k3
      · subst h
        simp [tableInsert, tableGet, hne]
      · by_cases h2 : k2 = k3 <;> simp [tableInsert, tableGet, h, h2, ih]

theorem beBytes_length (n count : Nat) : (beBytes n count).length = count := by
  simp [beBytes]

theorem sha256_length (msg : List Nat) : (sha256 msg).length = 32 := by
  simp [sha256, beBytes_length]

theorem decodeCard_encodeCard (c : Card) : decodeCard (encodeCard c) = some c := rfl

theorem decodeList_encodeCard (cs : List Card) :
    decodeList decodeCard (cs.map encodeCard) = some cs := by
  induction cs with
  | nil => rfl
  | cons c rest ih => simp [decodeList, decodeCard_encodeCard, ih]

theorem decodeList_bytes (bs : List Nat) (hb : ∀ b ∈ bs, b < 256) :
    decodeList decodeU8 (bs.map Json.num) = some bs := by
  induction bs with
  | nil => rfl
  | cons b rest ih =>
      have hb1 : b < 256 := hb b (List.mem_cons_self b rest)
      have hrest : ∀ x ∈ rest, x < 256 := fun x hx => hb x (List.mem_cons_of_mem b hx)
      simp [decodeList, decodeU8, hb1, ih hrest]

theorem decksLoop_spec (user_id : Nat) (t : Table (Nat × Nat) CardDeck)
    (h : ∀ e ∈ t, e.1.1 = user_id → e.2.cards.length < 2 ^ 32) :
    decksLoop user_id t = .ok (decksOwnedBy t user_id) := by
  induction t with
  | nil => rfl
  | cons e rest ih =>
      obtain ⟨⟨uid, did⟩, deck⟩ := e
      have hrest : ∀ x ∈ rest, x.1.1 = user_id → x.2.cards.length < 2 ^ 32 :=
        fun x hx => h x (List.mem_cons_of_mem _ hx)
      have ihr := ih hrest
      by_cases huid : uid = user_id
      · have hlen : deck.cards.length < 2 ^ 32 := h _ (List.mem_cons_self _ _) huid
        have hlen4 : deck.cards.length < 4294967296 := by simpa using hlen
        simp [decksLoop, huid, tryIntoNumCards, hlen4, ihr, decksOwnedBy, List.filter_cons]
      · simp [decksLoop, huid, ihr, decksOwnedBy, List.filter_cons]

/-! ## Claim theorems. -/

/-- C1: the claim that new_card performs its read and write inside one
exclusive scope per (user_id, deck_id) key fails on the code.  The read
runs in its own read transaction and the write in a second, independent
write transaction, so the schedule read A, read B, write A, write B is
admitted: both calls read the same prior state, both complete, and the
second write-back stores the stale snapshot plus only B's card,
discarding A's appended card (a lost update). -/
theorem C1_lost_update (db : Database) (user_id deck_id : Nat) (deck : CardDeck)
    (qA aA qB aB : String) (h : tableGet db.decks (user_id, deck_id) = some deck) :
    ∃ db2, new_card_interleaved db user_id deck_id qA aA qB aB = some db2 ∧
      tableGet db2.decks (user_id, deck_id) =
        some { creation_time := deck.creation_time,
               cards := deck.cards ++ [{ question := qB, answer := aB }],
               name := deck.name } := by
  refine ⟨new_card_write (new_card_write db user_id deck_id deck qA aA)
            user_id deck_id deck qB aB, ?_, ?_⟩
  · simp [new_card_interleaved, new_card_read, h]
  · simpa [new_card_write] using
      tableGet_insert_same (new_card_write db user_id deck_id deck qA aA).decks
        (user_id, deck_id)
        { creation_time := deck.creation_time,
          cards := deck.cards ++ [{ question := qB, answer := aB }],
          name := deck.name }

/-- Witness for C1 at a concrete store: one empty deck at key (1, 2);
after the interleaved pair of create_card calls only the second card
is present. -/
theorem C1_lost_update_witness :
    ∃ db2, new_card_interleaved
        ⟨[], [((1, 2), { creation_time := 0, cards := [], name := "Spanish" })]⟩
        1 2 "q1" "a1" "q2" "a2" = some db2 ∧
      tableGet db2.decks (1, 2) =
        some { creation_time := 0,
               cards := [{ question := "q2", answer := "a2" }],
               name := "Spanish" } :=
  C1_lost_update
    ⟨[], [((1, 2), { creation_time := 0, cards := [], name := "Spanish" })]⟩ 1 2
    { creation_time := 0, cards := [], name := "Spanish" } "q1" "a1" "q2" "a2" rfl

/-- C2: the claim that create_card and list_cards return a typed
DeckNotFound error on a missing deck fails on the code: both call
unwrap() on the absent record and panic, terminating the process
(AndyError has no DeckNotFound variant at all). -/
theorem C2_missing_deck_panics (db : Database) (user_id deck_id : Nat)
    (question answer : String)
    (h : tableGet db.decks (user_id, deck_id) = none) :
    new_card db user_id deck_id question answer =
      .panic "called Option::unwrap on a None value" ∧
    list_cards db user_id deck_id = .panic "called Option::unwrap on a None value" := by
  constructor
  · simp [new_card, new_card_read, h]
  · simp [list_cards, h]

/-- Witness for C2 on the empty store. -/
theorem C2_missing_deck_panics_witness :
    new_card ⟨[], []⟩ 1 2 "q" "a" = .panic "called Option::unwrap on a None value" ∧
    list_cards ⟨[], []⟩ 1 2 = .panic "called Option::unwrap on a None value" :=
  C2_missing_deck_panics ⟨[], []⟩ 1 2 "q" "a" rfl

/-- C3: the claim that the declared password_hash width matches the
SHA-256 output width fails on the code: SHA265_NUM_BYTES is 100 while
every SHA-256 digest has 32 bytes, so sha256_hash's
try_into().unwrap() panics on every password and create_account
(new_user) always terminates the process instead of storing the
record. -/
theorem C3_digest_width_mismatch :
    SHA265_NUM_BYTES = 100 ∧
    (∀ password : String, (sha256 (strBytes password)).length = 32) ∧
    SHA265_NUM_BYTES ≠ 32 ∧
    (∀ password : String,
       sha256_hash (strBytes password) = .panic "called Result::unwrap on an Err value") ∧
    (∀ (db : Database) (now : Nat) (user_name email password : String),
       new_user db now user_name email password =
         .panic "called Result::unwrap on an Err value") := by
  refine ⟨rfl, fun _ => sha256_length _, by decide, fun p => ?_, fun db now un em pw => ?_⟩
  · simp [sha256_hash, sha256_length, SHA265_NUM_BYTES]
  · simp [new_user, sha256_hash, sha256_length, SHA265_NUM_BYTES]

/-- C4: round-trip of the encoding contract holds: for every valid
UserEntry and CardDeck value, deserializing the serialized document
yields the original value. -/
theorem C4_round_trip (u : UserEntry) (d : CardDeck)
    (hu : ValidUserEntry u) (hd : ValidCardDeck d) :
    decodeUserEntry (encodeUserEntry u) = some u ∧
    decodeCardDeck (encodeCardDeck d) = some d := by
  obtain ⟨h1, h2, h3, h4⟩ := hu
  constructor
  · have h1n : u.user_id < 18446744073709551616 := by simpa using h1
    have h2n : u.signup_time < 18446744073709551616 := by simpa using h2
    simp [encodeUserEntry, decodeUserEntry, decodeU64, h1n, h2n, h3,
      decodeList_bytes u.password_hash h4]
  · have hdn : d.creation_time < 18446744073709551616 := by simpa using hd
    simp [encodeCardDeck, decodeCardDeck, decodeU64, hdn, decodeList_encodeCard]

/-- Witness for C4 at concrete record values. -/
theorem C4_round_trip_witness :
    decodeUserEntry (encodeUserEntry
      { username := "alice", user_id := 1, email := "alice@example.com",
        password_hash := List.replicate 100 7, signup_time := 5 }) =
      some { username := "alice", user_id := 1, email := "alice@example.com",
             password_hash := List.replicate 100 7, signup_time := 5 } ∧
    decodeCardDeck (encodeCardDeck
      { creation_time := 3, cards := [{ question := "hola", answer := "hello" }],
        name := "Spanish" }) =
      some { creation_time := 3, cards := [{ question := "hola", answer := "hello" }],
             name := "Spanish" } :=
  C4_round_trip _ _ (by decide) (by decide)

/-- C5: the claim that creating a record under an existing key fails
with Conflict and leaves the stored record in place fails on the code:
redb's insert is an upsert and no presence check is made, so
new_card_deck on an existing (user_id, deck_id) key succeeds and
replaces the stored deck with a fresh empty one.  (new_user cannot even
reach its insert: it panics in sha256_hash on every call.) -/
theorem C5_create_deck_overwrites (db : Database) (now user_id : Nat)
    (deck_name : String) (deck : CardDeck)
    (_h : tableGet db.decks (user_id, hash deck_name) = some deck) :
    ∃ db2, new_card_deck db now user_id deck_name = .ok db2 ∧
      tableGet db2.decks (user_id, hash deck_name) =
        some { creation_time := now, cards := [], name := deck_name } := by
  refine ⟨_, rfl, ?_⟩
  simpa [new_card_deck] using
    tableGet_insert_same db.decks (user_id, hash deck_name)
      { creation_time := now, cards := [], name := deck_name }

/-- Witness for C5: a second create_deck for the name Spanish succeeds
and wipes the stored deck's card. -/
theorem C5_create_deck_overwrites_witness :
    ∃ db2, new_card_deck
        ⟨[], [((1, hash "Spanish"),
               { creation_time := 3,
                 cards := [{ question := "hola", answer := "hello" }],
                 name := "Spanish" })]⟩ 9 1 "Spanish" = .ok db2 ∧
      tableGet db2.decks (1, hash "Spanish") =
        some { creation_time := 9, cards := [], name := "Spanish" } :=
  C5_create_deck_overwrites
    ⟨[], [((1, hash "Spanish"),
           { creation_time := 3,
             cards := [{ question := "hola", answer := "hello" }],
             name := "Spanish" })]⟩ 9 1 "Spanish"
    { creation_time := 3, cards := [{ question := "hola", answer := "hello" }],
      name := "Spanish" } rfl

/-- C6: the claim that decoding bytes not produced by a matching encode
surfaces a recoverable EncodingCorruption error fails on the code:
from_bytes calls expect() on the deserialization result and panics on
every undecodable document (AndyError has no EncodingCorruption
variant at all). -/
theorem C6_decode_corruption_panics (j : Json)
    (h : decodeCardDeck j = none) :
    CardDeck.from_bytes j = .panic "database deserialization messed up" := by
  simp [CardDeck.from_bytes, h]

/-- Witness for C6 at the undecodable document produced by the bytes of
the empty JSON object. -/
theorem C6_decode_corruption_panics_witness :
    CardDeck.from_bytes (Json.obj []) = .panic "database deserialization messed up" :=
  C6_decode_corruption_panics (Json.obj []) rfl

/-- C7: the claim that validate_token returns the owning user_id for a
live session and fails BadAccessToken otherwise, never terminating the
process, fails on the code: the body is todo!(), which panics
unconditionally on every token (no sessions table even exists). -/
theorem C7_validate_token_always_panics :
    ∀ token : String, validate_token token = .panic "not yet implemented" :=
  fun _ => rfl

/-- C8: key derivation is deterministic: fn hash builds its hasher from
DefaultHasher::new(), whose initial state is the fixed SipHash-1-3 zero
key state independent of any ambient process state, so the same string
yields the same 64-bit identifier on every call and across process
restarts. -/
theorem C8_hash_deterministic :
    (∀ u : String, hash u = hash u) ∧
    (∀ (state1 state2 : Nat) (u : String),
       hashInProcess state1 u = hashInProcess state2 u) :=
  ⟨fun _ => rfl, fun _ _ _ => rfl⟩

/-- C9: list_card_decks returns exactly the entries of the decks table
whose composite key has the given user_id as first component, each
carrying the deck name and its card count, and in particular the empty
list (not an error) when no entry matches, provided every owned deck's
card count fits the response's count field. -/
theorem C9_list_card_decks_exact (db : Database) (user_id : Nat)
    (h : ∀ e ∈ db.decks, e.1.1 = user_id → e.2.cards.length < 2 ^ 32) :
    list_card_decks db user_id = .ok (decksOwnedBy db.decks user_id) :=
  decksLoop_spec user_id db.decks h

/-- Witness for C9 at a concrete store holding one deck of user 1 and
one deck of user 2. -/
theorem C9_list_card_decks_exact_witness :
    list_card_decks
      ⟨[], [((1, 5), { creation_time := 0,
                       cards := [{ question := "q", answer := "a" }], name := "A" }),
            ((2, 6), { creation_time := 0, cards := [], name := "B" })]⟩ 1 =
      .ok (decksOwnedBy
        [((1, 5), { creation_time := 0,
                    cards := [{ question := "q", answer := "a" }], name := "A" }),
         ((2, 6), { creation_time := 0, cards := [], name := "B" })] 1) :=
  C9_list_card_decks_exact _ 1 (by decide)

/-- C10: when the deck is present, create_card leaves its name and
creation_time and all previously stored cards unchanged, appending the
new card after them, and leaves every other decks-table key and the
whole users table unchanged. -/
theorem C10_new_card_frame (db : Database) (user_id deck_id : Nat)
    (question answer : String) (deck : CardDeck)
    (h : tableGet db.decks (user_id, deck_id) = some deck) :
    ∃ db2, new_card db user_id deck_id question answer = .ok db2 ∧
      tableGet db2.decks (user_id, deck_id) =
        some { creation_time := deck.creation_time,
               cards := deck.cards ++ [{ question := question, answer := answer }],
               name := deck.name } ∧
      (∀ k : Nat × Nat, k ≠ (user_id, deck_id) →
         tableGet db2.decks k = tableGet db.decks k) ∧
      db2.users = db.users := by
  refine ⟨new_card_write db user_id deck_id deck question answer, ?_, ?_, ?_, rfl⟩
  · simp [new_card, new_card_read, h]
  · simpa [new_card_write] using
      tableGet_insert_same db.decks (user_id, deck_id)
        { creation_time := deck.creation_time,
          cards := deck.cards ++ [{ question := question, answer := answer }],
          name := deck.name }
  · intro k hk
    simpa [new_card_write] using
      tableGet_insert_ne db.decks (user_id, deck_id) k
        { creation_time := deck.creation_time,
          cards := deck.cards ++ [{ question := question, answer := answer }],
          name := deck.name } hk

/-- Witness for C10 at a concrete store with two decks and one user
record. -/
theorem C10_new_card_frame_witness :
    ∃ db2, new_card
        ⟨[("bob", { username := "bob", user_id := 4, email := "b@c",
                    password_hash := [], signup_time := 0 })],
         [((1, 2), { creation_time := 7,
                     cards := [{ question := "hola", answer := "hello" }],
                     name := "Spanish" }),
          ((3, 9), { creation_time := 8, cards := [], name := "Other" })]⟩
        1 2 "adios" "bye" = .ok db2 ∧
      tableGet db2.decks (1, 2) =
        some { creation_time := 7,
               cards := [{ question := "hola", answer := "hello" },
                         { question := "adios", answer := "bye" }],
               name := "Spanish" } ∧
      (∀ k : Nat × Nat, k ≠ (1, 2) →
         tableGet db2.decks k =
           tableGet [((1, 2), { creation_time := 7,
                                cards := [{ question := "hola", answer := "hello" }],
                                name := "Spanish" }),
                     ((3, 9), { creation_time := 8, cards := [], name := "Other" })] k) ∧
      db2.users = [("bob", { username := "bob", user_id := 4, email := "b@c",
                             password_hash := [], signup_time := 0 })] :=
  C10_new_card_frame
    ⟨[("bob", { username := "bob", user_id := 4, email := "b@c",
                password_hash := [], signup_time := 0 })],
     [((1, 2), { creation_time := 7,
                 cards := [{ question := "hola", answer := "hello" }],
                 name := "Spanish" }),
      ((3, 9), { creation_time := 8, cards := [], name := "Other" })]⟩
    1 2 "adios" "bye"
    { creation_time := 7, cards := [{ question := "hola", answer := "hello" }],
      name := "Spanish" } rfl

end Cognoso
